import Mathlib

/-!
Shallow embedding of `haproxy-statsd.py` and verification of spec claims.

The program has two core functions:

* `get_haproxy_report(url, user, password)` — fetches the HAProxy CSV stats
  page from one or several endpoints, strips the leading comment marker from
  the header line, merges the data lines and parses them with
  `csv.DictReader`;
* `report_to_statsd(stat_rows, host, port, namespace, excludeproxies)` —
  sends one UDP gauge datagram per (record, tracked field) pair and returns
  the number of datagrams sent.

The embedding below models these functions over explicit state: the network
is a function from URL and optional basic-auth credentials to an HTTP
response, and UDP sends are collected in a list of datagrams.  Exceptions
(`HTTPError` from `raise_for_status`, `KeyError` from `row[k]`, `TypeError`
from joining `None`, `IndexError` from `lines.pop(0)` on an empty body,
`NameError` from `header` being unbound after a loop over zero URLs) are
modelled with `Except String`.
-/

namespace HaproxyStatsd

/-- An HTTP response: numeric status code and body text. -/
structure HttpResponse where
  status : Nat
  content : String
deriving DecidableEq

/-- The network seen by the fetcher: maps a URL and optional
`(user, password)` basic-auth credentials to the response. -/
abbrev Net := String → Option (String × String) → HttpResponse

/-- Helper for `splitlines`: walk the characters, cutting at newline. -/
def splitlinesAux : List Char → List Char → List String
  | [], [] => []
  | [], acc => [String.mk acc.reverse]
  | c :: rest, acc =>
    if c = '\n' then String.mk acc.reverse :: splitlinesAux rest []
    else splitlinesAux rest (c :: acc)

/-- Models Python `content.splitlines()` for newline-terminated text: no
trailing empty string is produced for a final newline, and the empty string
yields no lines at all. -/
def splitlines (s : String) : List String := splitlinesAux s.data []

/-- Models Python `line.lstrip('# ')`: remove every leading character that
is `'#'` or `' '` (a character set, not the literal two-character prefix). -/
def lstripHashSpace (s : String) : String :=
  String.mk (s.data.dropWhile (fun c => c = '#' || c = ' '))

/-- Helper for `splitCommas`: walk the characters, cutting at commas. -/
def splitCommasAux : List Char → List Char → List String
  | [], acc => [String.mk acc.reverse]
  | c :: rest, acc =>
    if c = ',' then String.mk acc.reverse :: splitCommasAux rest []
    else splitCommasAux rest (c :: acc)

/-- Split a line at commas.  This models `csv.reader` field splitting for
lines without quoting or escapes, which is the shape of HAProxy CSV. -/
def splitCommas (s : String) : List String := splitCommasAux s.data []

/-- Models one line through `csv.reader`: a blank line parses to the empty
row `[]` (which `DictReader` later skips), any other line is split at
commas. -/
def parseCsvRow (line : String) : List String :=
  if line = "" then [] else splitCommas line

/-- A stat record: an association list from field name to value, where a
value of `none` stands for Python `None` (used by `DictReader` as `restval`
padding for short rows). -/
abbrev Record := List (String × Option String)

/-- Helper for `makeRecord`: `zip(fieldnames, row)` with `DictReader`
restval handling — missing trailing values become `None`, extra values
beyond the fieldnames are dropped (they go under the non-string `restkey`
`None`, which no string lookup can reach). -/
def zipFields : List String → List String → Record
  | [], _ => []
  | k :: ks, [] => (k, none) :: zipFields ks []
  | k :: ks, v :: vs => (k, some v) :: zipFields ks vs

/-- Build one `DictReader` record from the fieldnames and a parsed row.
The list is reversed so that `List.lookup`, which finds the first match,
agrees with Python `dict`, where the last assignment to a duplicate key
wins. -/
def makeRecord (fieldnames row : List String) : Record :=
  (zipFields fieldnames row).reverse

/-- Models `csv.DictReader(lines)`: the first line supplies the
fieldnames, every following non-blank line becomes a record. -/
def dictReader : List String → List Record
  | [] => []
  | header :: rest =>
    ((rest.map parseCsvRow).filter (fun row => row ≠ [])).map
      (makeRecord (parseCsvRow header))

/-- Models `requests.Response.raise_for_status()`: it raises `HTTPError`
exactly for 4xx and 5xx status codes (400–599), not for other non-2xx
codes. -/
def raise_for_status (status : Nat) : Except String Unit :=
  if 400 ≤ status ∧ status < 600 then Except.error "HTTPError" else Except.ok ()

/-- The `url` argument of `get_haproxy_report`: a single string or a list
of strings. -/
inductive UrlArg where
  | str : String → UrlArg
  | list : List String → UrlArg

/-- Models the auth setup of `get_haproxy_report`: `auth = None`, then
`if user: auth = HTTPBasicAuth(user, password)` (the empty string is
falsy). -/
def authOf (user password : String) : Option (String × String) :=
  if user = "" then none else some (user, password)

/-- The fetch loop of `get_haproxy_report`: for each URL get the response,
raise for status, split the body into lines, pop the first line as the
header (stripping `'# '` characters), and append the remaining lines to
`aggregated`.  The `header` variable is overwritten on every iteration, so
after the loop it holds the header of the last endpoint. -/
def fetchLoop (net : Net) (auth : Option (String × String)) :
    List String → List String → Option String →
    Except String (List String × Option String)
  | [], aggregated, header => Except.ok (aggregated, header)
  | u :: rest, aggregated, _header =>
    match raise_for_status (net u auth).status with
    | Except.error e => Except.error e
    | Except.ok _ =>
      match splitlines (net u auth).content with
      | [] => Except.error "IndexError"
      | line0 :: ls =>
        fetchLoop net auth rest (aggregated ++ ls) (some (lstripHashSpace line0))

/-- Models `get_haproxy_report(url, user, password)`: normalise a single
string to a one-element list, run the fetch loop, insert the (last)
header at the front of the aggregated data lines and parse with
`csv.DictReader`.  If the URL list is empty, `header` was never assigned
and the final `aggregated.insert(0, header)` raises `NameError`. -/
def get_haproxy_report (url : UrlArg) (user : String) (password : String)
    (net : Net) : Except String (List Record) :=
  let urls := match url with
    | UrlArg.str s => [s]
    | UrlArg.list l => l
  match fetchLoop net (authOf user password) urls [] none with
  | Except.error e => Except.error e
  | Except.ok (_aggregated, none) => Except.error "NameError"
  | Except.ok (aggregated, some header) =>
    Except.ok (dictReader (header :: aggregated))

/-- One UDP datagram: payload and destination. -/
structure Datagram where
  payload : String
  host : String
  port : Nat
deriving DecidableEq

/-- The fixed ordered list of tracked stats of `report_to_statsd`. -/
def trackedFields : List String :=
  ["scur", "smax", "ereq", "econ", "rate", "bin", "bout",
   "hrsp_1xx", "hrsp_2xx", "hrsp_3xx", "hrsp_4xx", "hrsp_5xx",
   "qtime", "ctime", "rtime", "ttime"]

/-- Models Python `row[k]`: `KeyError` when the key is absent; the stored
value itself may be `None`. -/
def getItem (row : Record) (k : String) : Except String (Option String) :=
  match List.lookup k row with
  | none => Except.error "KeyError"
  | some v => Except.ok v

/-- Models Python `row.get(k)`: `None` when the key is absent (and the
stored value may itself be `None`). -/
def getDefault (row : Record) (k : String) : Option String :=
  match List.lookup k row with
  | none => none
  | some v => v

/-- Models passing a value to `'.'.join(...)`: joining `None` raises
`TypeError`; a string passes through. -/
def asStr : Option String → Except String String
  | none => Except.error "TypeError"
  | some s => Except.ok s

/-- Models `val = row.get(stat) or 0` rendered through `'%s'`: an absent
key or a falsy value (`None` or the empty string) becomes `"0"`, any other
value is the stored string unchanged. -/
def orZero (v : Option String) : String :=
  match v with
  | none => "0"
  | some s => if s = "" then "0" else s

/-- The body of the reporting loop of `report_to_statsd` for one row.
First `row['svname']` is read (a `KeyError` here escapes whatever the
filter would have said); the row is skipped when the svname is neither
`BACKEND` nor `FRONTEND` and `excludeproxies` is set; otherwise the path
`namespace.pxname.svname` is joined and one datagram
`path.stat:val|g` is sent per tracked stat. -/
def reportRow (host : String) (port : Nat) (ns : String)
    (excludeproxies : Bool) (row : Record) : Except String (List Datagram) :=
  match getItem row "svname" with
  | Except.error e => Except.error e
  | Except.ok sv =>
    if ¬(sv = some "BACKEND" ∨ sv = some "FRONTEND") ∧ excludeproxies then
      Except.ok []
    else
      match getItem row "pxname", getItem row "svname" with
      | Except.error e, _ => Except.error e
      | _, Except.error e => Except.error e
      | Except.ok px, Except.ok sv2 =>
        match asStr px, asStr sv2 with
        | Except.error e, _ => Except.error e
        | _, Except.error e => Except.error e
        | Except.ok pxs, Except.ok svs =>
          Except.ok (trackedFields.map (fun stat =>
            { payload := ns ++ "." ++ pxs ++ "." ++ svs ++ "." ++ stat ++ ":"
                ++ orZero (getDefault row stat) ++ "|g"
              host := host
              port := port }))

/-- The reporting loop of `report_to_statsd` over all rows, collecting the
datagrams in order; the first exception aborts the loop. -/
def reportRows (host : String) (port : Nat) (ns : String) (ex : Bool) :
    List Record → Except String (List Datagram)
  | [] => Except.ok []
  | row :: rest =>
    match reportRow host port ns ex row with
    | Except.error e => Except.error e
    | Except.ok ds =>
      match reportRows host port ns ex rest with
      | Except.error e => Except.error e
      | Except.ok ds2 => Except.ok (ds ++ ds2)

/-- Models `report_to_statsd(stat_rows, host, port, namespace,
excludeproxies)`: the sent datagrams together with `stat_count`, which is
incremented once per datagram. -/
def report_to_statsd (stat_rows : List Record) (host : String) (port : Nat)
    (ns : String) (excludeproxies : Bool) :
    Except String (List Datagram × Nat) :=
  match reportRows host port ns excludeproxies stat_rows with
  | Except.error e => Except.error e
  | Except.ok ds => Except.ok (ds, ds.length)

/-- One polling-cycle body of the main loop: fetch, then report. -/
def runCycle (url : UrlArg) (user password : String) (net : Net)
    (host : String) (port : Nat) (ns : String) (ex : Bool) :
    Except String (List Datagram × Nat) :=
  match get_haproxy_report url user password net with
  | Except.error e => Except.error e
  | Except.ok records => report_to_statsd records host port ns ex

/-! Views used to state theorems. -/

/-- The parsed lines of the response body of endpoint `u`. -/
def respLines (net : Net) (auth : Option (String × String)) (u : String) :
    List String :=
  splitlines (net u auth).content

/-- The data lines (all lines after the header) of endpoint `u`. -/
def dataOf (net : Net) (auth : Option (String × String)) (u : String) :
    List String :=
  (respLines net auth u).tail

/-- The stripped header line of endpoint `u`. -/
def headerOf (net : Net) (auth : Option (String × String)) (u : String) :
    String :=
  lstripHashSpace ((respLines net auth u).headD "")

/-- Decidable equality on `Except`, used to evaluate claims on concrete
inputs. -/
instance [DecidableEq ε] [DecidableEq α] : DecidableEq (Except ε α) := by
  intro x y
  cases x with
  | error e =>
    cases y with
    | error f =>
      exact if h : e = f then Decidable.isTrue (by rw [h])
        else Decidable.isFalse (by intro hc; cases hc; exact h rfl)
    | ok b => exact Decidable.isFalse (by intro hc; cases hc)
  | ok a =>
    cases y with
    | error f => exact Decidable.isFalse (by intro hc; cases hc)
    | ok b =>
      exact if h : a = b then Decidable.isTrue (by rw [h])
        else Decidable.isFalse (by intro hc; cases hc; exact h rfl)

/-- An endpoint whose response does not make the fetch loop raise: status
outside 400–599 and a non-empty body. -/
def okEndpoint (net : Net) (auth : Option (String × String)) (u : String) :
    Prop :=
  raise_for_status (net u auth).status = Except.ok () ∧ respLines net auth u ≠ []

instance (net : Net) (auth : Option (String × String)) (u : String) :
    Decidable (okEndpoint net auth u) := by
  unfold okEndpoint
  infer_instance

/-- The value the `header` variable holds after the fetch loop: the
stripped first line of the last endpoint processed, or the incoming value
when no endpoint is left. -/
def lastHeader (net : Net) (auth : Option (String × String)) :
    List String → Option String → Option String
  | [], hdr => hdr
  | u :: rest, _hdr => lastHeader net auth rest (some (headerOf net auth u))

/-- Whether an `Except` computation succeeded. -/
def exceptIsOk : Except ε α → Bool
  | Except.ok _ => true
  | Except.error _ => false

/-- The reporter filter as a predicate on records: a record passes when
its svname is `BACKEND` or `FRONTEND`, or `excludeproxies` is off.  (Only
meaningful for records that do have an svname string.) -/
def passesFilter (ex : Bool) (row : Record) : Bool :=
  (getDefault row "svname" == some "BACKEND")
    || (getDefault row "svname" == some "FRONTEND") || !ex

/-- Whether the record stores an actual string (not `None`) under key `k`. -/
def hasStrKey (row : Record) (k : String) : Bool :=
  match List.lookup k row with
  | some (some _) => true
  | _ => false

/-- A record with string values for both keys the reporter dereferences. -/
def wellKeyed (row : Record) : Bool :=
  hasStrKey row "svname" && hasStrKey row "pxname"

/-- The `pxname` of a record, defaulting to the empty string. -/
def pxnameD (row : Record) : String := (getDefault row "pxname").getD ""

/-- The `svname` of a record, defaulting to the empty string. -/
def svnameD (row : Record) : String := (getDefault row "svname").getD ""

/-- The single datagram the reporter emits for a record and one tracked
stat. -/
def emitDatagram (host : String) (port : Nat) (ns : String) (row : Record)
    (stat : String) : Datagram :=
  { payload := ns ++ "." ++ pxnameD row ++ "." ++ svnameD row ++ "." ++ stat
      ++ ":" ++ orZero (getDefault row stat) ++ "|g"
    host := host
    port := port }

/-- All 16 datagrams the reporter emits for one record that passes the
filter, in tracked-field order. -/
def recordEmissions (host : String) (port : Nat) (ns : String)
    (row : Record) : List Datagram :=
  trackedFields.map (emitDatagram host port ns row)

/-- Follows the spec's words (not the code), for comparison: the value is
coerced to a number at emission time, defaulting to 0 when the field is
absent or its value is empty; a decimal digit string denotes the evident
natural number. -/
def specNumericValue (v : Option String) : Nat :=
  match v with
  | none => 0
  | some s => s.data.foldl (fun n c => n * 10 + (c.toNat - 48)) 0

/-- Follows the spec's words (not the code), for comparison: the payload a
numeric emission would carry, rendering the coerced number. -/
def specPayload (ns : String) (row : Record) (stat : String) : String :=
  ns ++ "." ++ pxnameD row ++ "." ++ svnameD row ++ "." ++ stat ++ ":"
    ++ Nat.repr (specNumericValue (getDefault row stat)) ++ "|g"

/-! Concrete fixtures used by counterexamples and witnesses. -/

/-- Two endpoints exposing different CSV schemas. -/
def netTwoHeaders : Net := fun u _ =>
  if u = "u1" then ⟨200, "# a,b\n1,2"⟩ else ⟨200, "# c,d\n3,4"⟩

/-- Two endpoints with the same schema and 2 resp. 1 data rows. -/
def netTwo : Net := fun u _ =>
  if u = "a" then ⟨200, "# pxname,svname,scur\nweb,FRONTEND,3\nweb,BACKEND,7"⟩
  else ⟨200, "# pxname,svname,scur\napi,BACKEND,1"⟩

/-- An endpoint answering with a non-2xx status that is not 4xx/5xx. -/
def net304 : Net := fun _ _ => ⟨304, "# pxname,svname\nweb,FRONTEND"⟩

/-- An endpoint answering with a server error. -/
def net500 : Net := fun _ _ => ⟨500, "error"⟩

/-- A FRONTEND record. -/
def recFrontend : Record :=
  [("pxname", some "web"), ("svname", some "FRONTEND"), ("scur", some "3")]

/-- An individual-server record (filtered out under `excludeproxies`). -/
def recServer : Record := [("pxname", some "web"), ("svname", some "server1")]

/-- A BACKEND record with only `scur` set among the tracked fields. -/
def recBackendScur : Record :=
  [("svname", some "BACKEND"), ("pxname", some "web"), ("scur", some "5")]

/-- A BACKEND record whose `scur` value has leading zeros. -/
def recLeadingZeros : Record :=
  [("pxname", some "web"), ("svname", some "BACKEND"), ("scur", some "007")]

/-- A record without an svname key. -/
def recNoSvname : Record := [("pxname", some "web")]

/-- A record without a pxname key. -/
def recNoPxname : Record := [("svname", some "BACKEND")]

/-! Lemmas about the reporter. -/

/-- A record with `hasStrKey` stores an actual string under the key. -/
lemma hasStrKey_lookup {row : Record} {k : String}
    (h : hasStrKey row k = true) : ∃ s, List.lookup k row = some (some s) := by
  unfold hasStrKey at h
  cases hl : List.lookup k row with
  | none => rw [hl] at h; simp at h
  | some v =>
    cases v with
    | none => rw [hl] at h; simp at h
    | some s => exact ⟨s, hl ▸ rfl⟩

/-- A well-keyed record has pxname and svname strings. -/
lemma wellKeyed_split {row : Record} (h : wellKeyed row = true) :
    hasStrKey row "svname" = true ∧ hasStrKey row "pxname" = true := by
  simpa [wellKeyed] using h

/-- Characterisation of the filter for a record whose svname lookup is
known. -/
lemma passesFilter_true_iff {row : Record} {sv : Option String}
    (h : List.lookup "svname" row = some sv) (ex : Bool) :
    passesFilter ex row = true ↔
      (sv = some "BACKEND" ∨ sv = some "FRONTEND" ∨ ex = false) := by
  unfold passesFilter getDefault
  rw [h]
  simp [Bool.or_eq_true, Bool.not_eq_true', or_assoc]

/-- For a record holding pxname and svname strings, `reportRow` succeeds
and emits the 16 tracked datagrams exactly when the record passes the
filter. -/
lemma reportRow_ok (host : String) (port : Nat) (ns : String) (ex : Bool)
    (row : Record) (h : wellKeyed row = true) :
    reportRow host port ns ex row =
      Except.ok (if passesFilter ex row = true
        then recordEmissions host port ns row else []) := by
  obtain ⟨sv, hsv⟩ := hasStrKey_lookup (wellKeyed_split h).1
  obtain ⟨px, hpx⟩ := hasStrKey_lookup (wellKeyed_split h).2
  cases ex with
  | false =>
    by_cases hB : sv = "BACKEND" <;> by_cases hF : sv = "FRONTEND" <;>
      simp [reportRow, getItem, asStr, hsv, hpx, hB, hF, passesFilter,
        recordEmissions, emitDatagram, pxnameD, svnameD, getDefault]
  | true =>
    by_cases hB : sv = "BACKEND" <;> by_cases hF : sv = "FRONTEND" <;>
      simp [reportRow, getItem, asStr, hsv, hpx, hB, hF, passesFilter,
        recordEmissions, emitDatagram, pxnameD, svnameD, getDefault]

/-- The reporting loop over records with string pxname/svname collects the
emissions of exactly the records that pass the filter, in order. -/
lemma reportRows_ok (host : String) (port : Nat) (ns : String) (ex : Bool) :
    ∀ rows : List Record, (∀ r ∈ rows, wellKeyed r = true) →
    reportRows host port ns ex rows =
      Except.ok ((rows.filter (passesFilter ex)).flatMap
        (recordEmissions host port ns)) := by
  intro rows h
  induction rows with
  | nil => rfl
  | cons r rest ih =>
    have hr : wellKeyed r = true := h r (List.mem_cons_self r rest)
    have hrest := ih (fun x hx => h x (List.mem_cons_of_mem r hx))
    by_cases hp : passesFilter ex r = true
    · simp [reportRows, reportRow_ok host port ns ex r hr, hrest, hp,
        List.filter_cons, List.flatMap_cons]
    · simp [reportRows, reportRow_ok host port ns ex r hr, hrest, hp,
        List.filter_cons]

/-- Each record contributes exactly 16 datagrams. -/
lemma length_bind_emissions (host : String) (port : Nat) (ns : String) :
    ∀ l : List Record,
      (l.flatMap (recordEmissions host port ns)).length = 16 * l.length := by
  intro l
  induction l with
  | nil => rfl
  | cons r rest ih =>
    have h16 : trackedFields.length = 16 := rfl
    simp only [List.flatMap_cons, List.length_append, recordEmissions,
      List.length_map, ih, h16, List.length_cons]
    omega

/-- Splitting the reporting loop at an append. -/
lemma reportRows_append (host : String) (port : Nat) (ns : String)
    (ex : Bool) (xs ys : List Record) :
    reportRows host port ns ex (xs ++ ys) =
      match reportRows host port ns ex xs, reportRows host port ns ex ys with
      | Except.error e, _ => Except.error e
      | Except.ok _, Except.error e => Except.error e
      | Except.ok a, Except.ok b => Except.ok (a ++ b) := by
  induction xs with
  | nil =>
    cases hys : reportRows host port ns ex ys <;> simp [reportRows, hys]
  | cons r rest ih =>
    cases hr : reportRow host port ns ex r with
    | error e => simp [reportRows, hr]
    | ok ds =>
      cases hrest : reportRows host port ns ex rest with
      | error e =>
        rw [hrest] at ih
        cases hys : reportRows host port ns ex ys <;>
          simp [reportRows, hr, ih, hrest, hys]
      | ok ds2 =>
        rw [hrest] at ih
        cases hys : reportRows host port ns ex ys <;>
          simp [reportRows, hr, ih, hrest, hys]

/-- A record whose `reportRow` emits nothing can be dropped from the
sequence. -/
lemma reportRows_skip_cons (host : String) (port : Nat) (ns : String)
    (ex : Bool) (row : Record)
    (h : reportRow host port ns ex row = Except.ok []) (post : List Record) :
    reportRows host port ns ex (row :: post) =
      reportRows host port ns ex post := by
  cases hp : reportRows host port ns ex post with
  | error e => simp [reportRows, h, hp]
  | ok ds => simp [reportRows, h, hp]

/-- A `KeyError` on `row['svname']` when the key is absent. -/
lemma reportRow_keyError_svname (host : String) (port : Nat) (ns : String)
    (ex : Bool) (row : Record) (h : List.lookup "svname" row = none) :
    reportRow host port ns ex row = Except.error "KeyError" := by
  simp [reportRow, getItem, h]

/-- A `KeyError` on `row['pxname']` for a record past the filter whose
pxname key is absent. -/
lemma reportRow_keyError_pxname (host : String) (port : Nat) (ns : String)
    (ex : Bool) (row : Record) (sv : String)
    (hsv : List.lookup "svname" row = some (some sv))
    (hpass : passesFilter ex row = true)
    (hpx : List.lookup "pxname" row = none) :
    reportRow host port ns ex row = Except.error "KeyError" := by
  have hpf := (passesFilter_true_iff hsv ex).mp hpass
  cases ex with
  | false =>
    by_cases hB : sv = "BACKEND" <;> by_cases hF : sv = "FRONTEND" <;>
      simp [reportRow, getItem, hsv, hpx, hB, hF]
  | true =>
    rcases hpf with h1 | h2 | h3
    · simp only [Option.some.injEq] at h1
      simp [reportRow, getItem, hsv, hpx, h1]
    · simp only [Option.some.injEq] at h2
      simp [reportRow, getItem, hsv, hpx, h2]
    · cases h3

/-- A failing record makes the whole reporting loop fail. -/
lemma reportRows_err_of_mem (host : String) (port : Nat) (ns : String)
    (ex : Bool) :
    ∀ (rows : List Record) (row : Record), row ∈ rows →
      exceptIsOk (reportRow host port ns ex row) = false →
      exceptIsOk (reportRows host port ns ex rows) = false := by
  intro rows
  induction rows with
  | nil => intro row hmem; cases hmem
  | cons r rest ih =>
    intro row hmem herr
    rcases List.mem_cons.mp hmem with heq | hmem2
    · subst heq
      cases hr : reportRow host port ns ex row with
      | error e => simp [reportRows, hr, exceptIsOk]
      | ok ds => rw [hr] at herr; simp [exceptIsOk] at herr
    · cases hr : reportRow host port ns ex r with
      | error e => simp [reportRows, hr, exceptIsOk]
      | ok ds =>
        have hih := ih row hmem2 herr
        cases hrest : reportRows host port ns ex rest with
        | error e => simp [reportRows, hr, hrest, exceptIsOk]
        | ok ds2 => rw [hrest] at hih; simp [exceptIsOk] at hih

/-! Lemmas about the fetcher. -/

/-- Splitting at commas always yields at least one field. -/
lemma splitCommasAux_ne_nil (cs : List Char) (acc : List Char) :
    splitCommasAux cs acc ≠ [] := by
  induction cs generalizing acc with
  | nil => simp [splitCommasAux]
  | cons c rest ih =>
    by_cases hc : c = ','
    · simp [splitCommasAux, hc]
    · simpa [splitCommasAux, hc] using ih (c :: acc)

/-- A non-blank line parses to a non-empty row. -/
lemma parseCsvRow_ne_nil {l : String} (h : l ≠ "") : parseCsvRow l ≠ [] := by
  unfold parseCsvRow
  rw [if_neg h]
  exact splitCommasAux_ne_nil _ _

/-- Parsing a batch of non-blank lines skips nothing. -/
lemma filter_map_csv (F : List String → Record) :
    ∀ ls : List String, (∀ l ∈ ls, l ≠ "") →
      ((ls.map parseCsvRow).filter (fun row => row ≠ [])).map F =
        ls.map (fun l => F (parseCsvRow l)) := by
  intro ls h
  induction ls with
  | nil => rfl
  | cons l rest ih =>
    have hl : parseCsvRow l ≠ [] :=
      parseCsvRow_ne_nil (h l (List.mem_cons_self l rest))
    have hr := ih (fun x hx => h x (List.mem_cons_of_mem l hx))
    simp [List.filter_cons, hl]
    simpa using hr

/-- `DictReader` over a header and non-blank data lines yields one record
per line, keyed by the header fields, in order. -/
lemma dictReader_eq_map (hdr : String) (lines : List String)
    (h : ∀ l ∈ lines, l ≠ "") :
    dictReader (hdr :: lines) =
      lines.map (fun l => makeRecord (parseCsvRow hdr) (parseCsvRow l)) := by
  unfold dictReader
  exact filter_map_csv (makeRecord (parseCsvRow hdr)) lines h

/-- The fetch loop over well-behaved endpoints collects all data lines in
order and ends holding the last endpoint's header. -/
lemma fetchLoop_ok (net : Net) (auth : Option (String × String)) :
    ∀ us : List String, (∀ u ∈ us, okEndpoint net auth u) →
    ∀ (agg : List String) (hdr : Option String),
      fetchLoop net auth us agg hdr =
        Except.ok (agg ++ us.flatMap (dataOf net auth),
          lastHeader net auth us hdr) := by
  intro us
  induction us with
  | nil => intro _h agg hdr; simp [fetchLoop, lastHeader]
  | cons u rest ih =>
    intro h agg hdr
    obtain ⟨hrs, hne⟩ := h u (List.mem_cons_self u rest)
    unfold respLines at hne
    obtain ⟨line0, ls, hsl⟩ := List.exists_cons_of_ne_nil hne
    have hrest := fun x hx => h x (List.mem_cons_of_mem u hx)
    simp only [fetchLoop, hrs, hsl]
    rw [ih hrest]
    simp [dataOf, headerOf, respLines, hsl, List.flatMap_cons,
      List.append_assoc, lastHeader]

/-- Appending one endpoint: the loop ends with that endpoint's header. -/
lemma lastHeader_append (net : Net) (auth : Option (String × String)) :
    ∀ (us : List String) (u : String) (hdr : Option String),
      lastHeader net auth (us ++ [u]) hdr = some (headerOf net auth u) := by
  intro us
  induction us with
  | nil => intro u hdr; simp [lastHeader]
  | cons v rest ih => intro u hdr; simp [lastHeader, ih]

/-- The fetcher over a non-empty list of well-behaved endpoints: all data
lines merged in order, interpreted under the last endpoint's header. -/
lemma get_report_eq (net : Net) (user pw : String) (us : List String)
    (u : String)
    (h : ∀ v ∈ us ++ [u], okEndpoint net (authOf user pw) v) :
    get_haproxy_report (UrlArg.list (us ++ [u])) user pw net =
      Except.ok (dictReader (headerOf net (authOf user pw) u ::
        (us ++ [u]).flatMap (dataOf net (authOf user pw)))) := by
  have hfl := fetchLoop_ok net (authOf user pw) (us ++ [u]) h [] none
  simp only [get_haproxy_report, hfl, lastHeader_append, List.nil_append]

/-- An endpoint with a 4xx or 5xx status makes the fetch loop fail. -/
lemma fetchLoop_err (net : Net) (auth : Option (String × String))
    (u : String)
    (hbad : 400 ≤ (net u auth).status ∧ (net u auth).status < 600) :
    ∀ us : List String, u ∈ us → ∀ (agg : List String) (hdr : Option String),
      exceptIsOk (fetchLoop net auth us agg hdr) = false := by
  intro us
  induction us with
  | nil => intro hmem; cases hmem
  | cons v rest ih =>
    intro hmem agg hdr
    rcases List.mem_cons.mp hmem with heq | hmem2
    · subst heq
      have hper : raise_for_status (net u auth).status =
          Except.error "HTTPError" := by
        unfold raise_for_status
        rw [if_pos hbad]
      simp [fetchLoop, hper, exceptIsOk]
    · cases hrs : raise_for_status (net v auth).status with
      | error e => simp [fetchLoop, hrs, exceptIsOk]
      | ok _ =>
        cases hsl : splitlines (net v auth).content with
        | nil => simp [fetchLoop, hrs, hsl, exceptIsOk]
        | cons line0 ls => simp [fetchLoop, hrs, hsl, ih hmem2]

/-! Claim theorems. -/

/-- C1 (counterexample): with two endpoints exposing different headers
(`# a,b` and `# c,d`), the merged rows are NOT interpreted under the first
endpoint's header, contrary to the claim. -/
theorem fetch_first_header_cex :
    get_haproxy_report (UrlArg.list ["u1", "u2"]) "" "" netTwoHeaders ≠
      Except.ok (dictReader (headerOf netTwoHeaders none "u1" ::
        ["u1", "u2"].flatMap (dataOf netTwoHeaders none))) := by
  decide

/-- C1 (amended): when the Fetcher is given a list of one or more endpoint
URLs, the header used to interpret all merged data rows is the header line
of the LAST endpoint's response; the header lines of every other endpoint
are discarded and play no role in the resulting records. -/
theorem fetch_uses_last_header (net : Net) (user pw : String)
    (us : List String) (u : String)
    (h : ∀ v ∈ us ++ [u], okEndpoint net (authOf user pw) v) :
    get_haproxy_report (UrlArg.list (us ++ [u])) user pw net =
      Except.ok (dictReader (headerOf net (authOf user pw) u ::
        (us ++ [u]).flatMap (dataOf net (authOf user pw)))) :=
  get_report_eq net user pw us u h

/-- Witness for the amended C1 theorem on a concrete two-endpoint
network. -/
theorem fetch_uses_last_header_witness :
    get_haproxy_report (UrlArg.list (["u1"] ++ ["u2"])) "" "" netTwoHeaders =
      Except.ok (dictReader (headerOf netTwoHeaders (authOf "" "") "u2" ::
        (["u1"] ++ ["u2"]).flatMap (dataOf netTwoHeaders (authOf "" "")))) :=
  fetch_uses_last_header netTwoHeaders "" "" ["u1"] "u2" (by decide)

/-- C2: a single well-behaved endpoint with non-blank data lines yields
one record per data line, keyed by the stripped header's column names, in
source order; two endpoints yield the endpoint-1 rows followed by the
endpoint-2 rows, `r1 + r2` records in total. -/
theorem fetch_yields_all_rows (net : Net) (user pw : String)
    (u u1 u2 : String)
    (hu : okEndpoint net (authOf user pw) u)
    (h1 : okEndpoint net (authOf user pw) u1)
    (h2 : okEndpoint net (authOf user pw) u2)
    (hne : ∀ l ∈ dataOf net (authOf user pw) u, l ≠ "")
    (hne1 : ∀ l ∈ dataOf net (authOf user pw) u1, l ≠ "")
    (hne2 : ∀ l ∈ dataOf net (authOf user pw) u2, l ≠ "") :
    get_haproxy_report (UrlArg.str u) user pw net =
      Except.ok ((dataOf net (authOf user pw) u).map (fun l =>
        makeRecord (parseCsvRow (headerOf net (authOf user pw) u))
          (parseCsvRow l))) ∧
    get_haproxy_report (UrlArg.list [u1, u2]) user pw net =
      Except.ok ((dataOf net (authOf user pw) u1 ++
          dataOf net (authOf user pw) u2).map (fun l =>
        makeRecord (parseCsvRow (headerOf net (authOf user pw) u2))
          (parseCsvRow l))) ∧
    ((dataOf net (authOf user pw) u1 ++
        dataOf net (authOf user pw) u2).map (fun l =>
      makeRecord (parseCsvRow (headerOf net (authOf user pw) u2))
        (parseCsvRow l))).length =
      (dataOf net (authOf user pw) u1).length +
        (dataOf net (authOf user pw) u2).length := by
  refine ⟨?_, ?_, by simp⟩
  · have heq : get_haproxy_report (UrlArg.str u) user pw net =
        get_haproxy_report (UrlArg.list ([] ++ [u])) user pw net := rfl
    rw [heq, get_report_eq net user pw [] u (by simpa using hu)]
    have hflat : ([] ++ [u]).flatMap (dataOf net (authOf user pw)) =
        dataOf net (authOf user pw) u := by simp
    rw [hflat, dictReader_eq_map _ _ hne]
  · have heq : get_haproxy_report (UrlArg.list [u1, u2]) user pw net =
        get_haproxy_report (UrlArg.list ([u1] ++ [u2])) user pw net := rfl
    have hok : ∀ v ∈ [u1] ++ [u2], okEndpoint net (authOf user pw) v := by
      intro v hv
      rcases List.mem_append.mp hv with hv1 | hv2
      · rw [List.mem_singleton.mp hv1]; exact h1
      · rw [List.mem_singleton.mp hv2]; exact h2
    rw [heq, get_report_eq net user pw [u1] u2 hok]
    have hflat : ([u1] ++ [u2]).flatMap (dataOf net (authOf user pw)) =
        dataOf net (authOf user pw) u1 ++ dataOf net (authOf user pw) u2 := by
      simp
    rw [hflat, dictReader_eq_map]
    intro l hl
    rcases List.mem_append.mp hl with hl1 | hl2
    · exact hne1 l hl1
    · exact hne2 l hl2

/-- Witness for C2 on a concrete network: endpoint `a` has two data rows,
endpoint `b` one. -/
theorem fetch_yields_all_rows_witness :
    get_haproxy_report (UrlArg.str "a") "" "" netTwo =
      Except.ok ((dataOf netTwo (authOf "" "") "a").map (fun l =>
        makeRecord (parseCsvRow (headerOf netTwo (authOf "" "") "a"))
          (parseCsvRow l))) ∧
    get_haproxy_report (UrlArg.list ["a", "b"]) "" "" netTwo =
      Except.ok ((dataOf netTwo (authOf "" "") "a" ++
          dataOf netTwo (authOf "" "") "b").map (fun l =>
        makeRecord (parseCsvRow (headerOf netTwo (authOf "" "") "b"))
          (parseCsvRow l))) ∧
    ((dataOf netTwo (authOf "" "") "a" ++
        dataOf netTwo (authOf "" "") "b").map (fun l =>
      makeRecord (parseCsvRow (headerOf netTwo (authOf "" "") "b"))
        (parseCsvRow l))).length =
      (dataOf netTwo (authOf "" "") "a").length +
        (dataOf netTwo (authOf "" "") "b").length :=
  fetch_yields_all_rows netTwo "" "" "a" "a" "b" (by decide) (by decide)
    (by decide) (by decide) (by decide) (by decide)

/-- C9: fetching with a single URL string returns exactly what fetching
with the one-element list of that URL returns, for any credentials and any
network. -/
theorem single_url_equiv_list (u user pw : String) (net : Net) :
    get_haproxy_report (UrlArg.str u) user pw net =
      get_haproxy_report (UrlArg.list [u]) user pw net := rfl

/-- C7 (counterexample): a 304 response is non-2xx, yet the fetch raises
nothing and returns records. -/
theorem non2xx_no_error_cex :
    (net304 "u" none).status = 304 ∧
    ¬(200 ≤ (net304 "u" none).status ∧ (net304 "u" none).status < 300) ∧
    exceptIsOk (get_haproxy_report (UrlArg.str "u") "" "" net304) = true := by
  decide

/-- C7 (amended): if any endpoint returns a 4xx or 5xx HTTP status, the
fetch propagates an error and yields no record sequence, so a failed fetch
can never make the Reporter run and report zero metrics as a success. -/
theorem fetch_fails_on_4xx_5xx (net : Net) (user pw : String)
    (us : List String) (u : String) (host : String) (port : Nat)
    (ns : String) (ex : Bool) (hmem : u ∈ us)
    (hbad : 400 ≤ (net u (authOf user pw)).status ∧
      (net u (authOf user pw)).status < 600) :
    exceptIsOk (get_haproxy_report (UrlArg.list us) user pw net) = false ∧
    exceptIsOk (runCycle (UrlArg.list us) user pw net host port ns ex)
      = false := by
  have hf := fetchLoop_err net (authOf user pw) u hbad us hmem [] none
  cases hfl : fetchLoop net (authOf user pw) us [] none with
  | error e =>
    constructor
    · simp [get_haproxy_report, hfl, exceptIsOk]
    · simp [runCycle, get_haproxy_report, hfl, exceptIsOk]
  | ok x => rw [hfl] at hf; simp [exceptIsOk] at hf

/-- Witness for the amended C7 theorem: a 500 endpoint fails the fetch and
the cycle. -/
theorem fetch_fails_on_4xx_5xx_witness :
    exceptIsOk (get_haproxy_report (UrlArg.list ["u"]) "" "" net500)
      = false ∧
    exceptIsOk (runCycle (UrlArg.list ["u"]) "" "" net500 "127.0.0.1" 8125
      "haproxy" false) = false :=
  fetch_fails_on_4xx_5xx net500 "" "" ["u"] "u" "127.0.0.1" 8125 "haproxy"
    false (by decide) (by decide)

/-- C3: for records carrying pxname/svname strings, the Reporter's return
value is 16 times the number of records that pass the proxy filter, and
the emissions are, per passing record, exactly one gauge per tracked field
in the fixed tracked-field order. -/
theorem report_count_sixteen_per_passing (rows : List Record)
    (host : String) (port : Nat) (ns : String) (ex : Bool)
    (h : ∀ r ∈ rows, wellKeyed r = true) :
    report_to_statsd rows host port ns ex =
      Except.ok ((rows.filter (passesFilter ex)).flatMap
        (recordEmissions host port ns),
        16 * (rows.filter (passesFilter ex)).length) := by
  unfold report_to_statsd
  simp only [reportRows_ok host port ns ex rows h]
  rw [length_bind_emissions]

/-- Witness for C3: one passing and one filtered record give count 16. -/
theorem report_count_sixteen_witness :
    report_to_statsd [recFrontend, recServer] "127.0.0.1" 8125 "haproxy"
        true =
      Except.ok (([recFrontend, recServer].filter (passesFilter true)).flatMap
        (recordEmissions "127.0.0.1" 8125 "haproxy"),
        16 * ([recFrontend, recServer].filter (passesFilter true)).length) :=
  report_count_sixteen_per_passing [recFrontend, recServer] "127.0.0.1" 8125
    "haproxy" true (by decide)

/-- C4: a record whose svname is neither BACKEND nor FRONTEND is skipped
entirely under `excludeproxies` (zero emissions, zero count, droppable
from any sequence); with `excludeproxies` off, or svname BACKEND or
FRONTEND, all 16 tracked fields are emitted. -/
theorem filter_excludes_non_proxy (row : Record) (host : String)
    (port : Nat) (ns : String)
    (hsv : hasStrKey row "svname" = true)
    (hpx : hasStrKey row "pxname" = true) :
    (svnameD row ≠ "BACKEND" → svnameD row ≠ "FRONTEND" →
      report_to_statsd [row] host port ns true = Except.ok ([], 0) ∧
      ∀ pre post : List Record,
        report_to_statsd (pre ++ row :: post) host port ns true =
          report_to_statsd (pre ++ post) host port ns true) ∧
    (∀ ex : Bool,
      ex = false ∨ svnameD row = "BACKEND" ∨ svnameD row = "FRONTEND" →
      report_to_statsd [row] host port ns ex =
        Except.ok (trackedFields.map (emitDatagram host port ns row), 16)) := by
  obtain ⟨sv, hsvl⟩ := hasStrKey_lookup hsv
  have hsvd : svnameD row = sv := by simp [svnameD, getDefault, hsvl]
  have hwk : wellKeyed row = true := by simp [wellKeyed, hsv, hpx]
  constructor
  · intro hB hF
    rw [hsvd] at hB hF
    have hpass : passesFilter true row = false := by
      rcases hp : passesFilter true row with _ | _
      · rfl
      · rcases (passesFilter_true_iff hsvl true).mp hp with h1 | h1 | h1
        · exact absurd (Option.some.injEq .. ▸ h1) hB
        · exact absurd (Option.some.injEq .. ▸ h1) hF
        · cases h1
    have hrr : reportRow host port ns true row = Except.ok [] := by
      rw [reportRow_ok host port ns true row hwk, hpass]
      simp
    constructor
    · simp [report_to_statsd, reportRows, hrr]
    · intro pre post
      unfold report_to_statsd
      rw [reportRows_append, reportRows_append,
        reportRows_skip_cons host port ns true row hrr post]
  · intro ex hyp
    have hpass : passesFilter ex row = true := by
      rw [passesFilter_true_iff hsvl ex]
      rcases hyp with h1 | h1 | h1
      · exact Or.inr (Or.inr h1)
      · exact Or.inl (by rw [hsvd] at h1; rw [h1])
      · exact Or.inr (Or.inl (by rw [hsvd] at h1; rw [h1]))
    have hrr : reportRow host port ns ex row =
        Except.ok (recordEmissions host port ns row) := by
      rw [reportRow_ok host port ns ex row hwk, hpass]
      simp
    simp [report_to_statsd, reportRows, hrr, recordEmissions, trackedFields]

/-- Witness for C4: a server row is skipped, a FRONTEND row is fully
emitted. -/
theorem filter_excludes_non_proxy_witness :
    report_to_statsd [recServer] "127.0.0.1" 8125 "haproxy" true =
      Except.ok ([], 0) ∧
    report_to_statsd [recFrontend] "127.0.0.1" 8125 "haproxy" true =
      Except.ok (trackedFields.map
        (emitDatagram "127.0.0.1" 8125 "haproxy" recFrontend), 16) := by
  have hs := filter_excludes_non_proxy recServer "127.0.0.1" 8125 "haproxy"
    (by decide) (by decide)
  have hf := filter_excludes_non_proxy recFrontend "127.0.0.1" 8125 "haproxy"
    (by decide) (by decide)
  exact ⟨(hs.1 (by decide) (by decide)).1, hf.2 true (by decide)⟩

/-- C5 (counterexample): a stored value `"007"` is emitted verbatim as
`007`, not as the decimal rendering `7` of a coerced number. -/
theorem raw_value_emitted_cex :
    (report_to_statsd [recLeadingZeros] "127.0.0.1" 8125 "haproxy"
        false).toOption.map (fun out => out.1.head?.map Datagram.payload) =
      some (some "haproxy.web.BACKEND.scur:007|g") ∧
    specPayload "haproxy" recLeadingZeros "scur" =
      "haproxy.web.BACKEND.scur:7|g" ∧
    ("haproxy.web.BACKEND.scur:007|g" : String) ≠
      "haproxy.web.BACKEND.scur:7|g" := by
  decide

/-- C5 (amended): for every record passing the filter and every tracked
field, the value emitted is the raw stored string, except that an absent
field or an empty value is replaced by `0` at emission time. -/
theorem value_emitted_verbatim_or_zero (row : Record) (host : String)
    (port : Nat) (ns : String) (ex : Bool)
    (hwk : wellKeyed row = true)
    (hpass : passesFilter ex row = true) :
    report_to_statsd [row] host port ns ex =
      Except.ok (trackedFields.map (fun stat =>
        { payload := ns ++ "." ++ pxnameD row ++ "." ++ svnameD row ++ "."
            ++ stat ++ ":"
            ++ (match getDefault row stat with
                | none => "0"
                | some s => if s = "" then "0" else s) ++ "|g"
          host := host
          port := port }), 16) := by
  have hrr := reportRow_ok host port ns ex row hwk
  rw [if_pos hpass] at hrr
  simp [report_to_statsd, reportRows, hrr, recordEmissions, emitDatagram,
    orZero, trackedFields]

/-- Witness for the amended C5 theorem. -/
theorem value_emitted_verbatim_witness :
    report_to_statsd [recLeadingZeros] "127.0.0.1" 8125 "haproxy" false =
      Except.ok (trackedFields.map (fun stat =>
        { payload := "haproxy" ++ "." ++ pxnameD recLeadingZeros ++ "."
            ++ svnameD recLeadingZeros ++ "." ++ stat ++ ":"
            ++ (match getDefault recLeadingZeros stat with
                | none => "0"
                | some s => if s = "" then "0" else s) ++ "|g"
          host := "127.0.0.1"
          port := 8125 }), 16) :=
  value_emitted_verbatim_or_zero recLeadingZeros "127.0.0.1" 8125 "haproxy"
    false (by decide) (by decide)

/-- C6: a BACKEND record with pxname `web` and only `scur = 5` among the
tracked fields yields exactly 16 emissions: the `scur` one has path
`<namespace>.web.BACKEND.scur` and value 5, the other 15 have value 0. -/
theorem backend_scur_defaults (host : String) (port : Nat) (ns : String) :
    report_to_statsd [recBackendScur] host port ns false =
      Except.ok (trackedFields.map (fun stat =>
        { payload := ns ++ "." ++ "web" ++ "." ++ "BACKEND" ++ "." ++ stat
            ++ ":" ++ (if stat = "scur" then "5" else "0") ++ "|g"
          host := host
          port := port }), 16) ∧
    (trackedFields.filter (fun stat => stat ≠ "scur")).length = 15 ∧
    "scur" ∈ trackedFields := by
  refine ⟨rfl, by decide, by decide⟩

/-- C8: for well-keyed records, every emission is one UDP datagram to
`(host, port)` whose payload is exactly
`namespace.pxname.svname.fieldname:value|g`. -/
theorem datagram_path_and_payload (rows : List Record) (host : String)
    (port : Nat) (ns : String) (ex : Bool)
    (h : ∀ r ∈ rows, wellKeyed r = true) :
    report_to_statsd rows host port ns ex =
      Except.ok ((rows.filter (passesFilter ex)).flatMap (fun r =>
        trackedFields.map (fun stat =>
          { payload := (ns ++ "." ++ pxnameD r ++ "." ++ svnameD r ++ "."
              ++ stat) ++ ":" ++ orZero (getDefault r stat) ++ "|g"
            host := host
            port := port })),
        16 * (rows.filter (passesFilter ex)).length) := by
  unfold report_to_statsd
  simp only [reportRows_ok host port ns ex rows h]
  rw [length_bind_emissions]
  have hfun : recordEmissions host port ns = fun r =>
      trackedFields.map (fun stat =>
        ({ payload := (ns ++ "." ++ pxnameD r ++ "." ++ svnameD r ++ "."
            ++ stat) ++ ":" ++ orZero (getDefault r stat) ++ "|g"
           host := host
           port := port } : Datagram)) := by
    funext r
    simp [recordEmissions, emitDatagram]
  rw [hfun]

/-- Witness for C8 on a single BACKEND record. -/
theorem datagram_path_and_payload_witness :
    report_to_statsd [recBackendScur] "127.0.0.1" 8125 "haproxy" false =
      Except.ok (([recBackendScur].filter (passesFilter false)).flatMap
        (fun r => trackedFields.map (fun stat =>
          { payload := ("haproxy" ++ "." ++ pxnameD r ++ "." ++ svnameD r
              ++ "." ++ stat) ++ ":" ++ orZero (getDefault r stat) ++ "|g"
            host := "127.0.0.1"
            port := 8125 })),
        16 * ([recBackendScur].filter (passesFilter false)).length) :=
  datagram_path_and_payload [recBackendScur] "127.0.0.1" 8125 "haproxy"
    false (by decide)

/-- C10: the Reporter dereferences `svname` on every record regardless of
the filter flag, and `pxname` on every record past the filter: an absent
key raises a lookup error instead of defaulting, unlike the tracked
numeric fields. -/
theorem reporter_requires_keys (host : String) (port : Nat) (ns : String) :
    (∀ (rows : List Record) (row : Record) (ex : Bool), row ∈ rows →
      List.lookup "svname" row = none →
      exceptIsOk (report_to_statsd rows host port ns ex) = false) ∧
    (∀ (rows : List Record) (row : Record) (ex : Bool) (sv : String),
      row ∈ rows → List.lookup "svname" row = some (some sv) →
      passesFilter ex row = true → List.lookup "pxname" row = none →
      exceptIsOk (report_to_statsd rows host port ns ex) = false) ∧
    (∀ (row : Record) (ex : Bool), List.lookup "svname" row = none →
      report_to_statsd [row] host port ns ex = Except.error "KeyError") := by
  refine ⟨?_, ?_, ?_⟩
  · intro rows row ex hmem hsv
    have herr : exceptIsOk (reportRow host port ns ex row) = false := by
      rw [reportRow_keyError_svname host port ns ex row hsv]; rfl
    have hall := reportRows_err_of_mem host port ns ex rows row hmem herr
    unfold report_to_statsd
    cases hrr : reportRows host port ns ex rows with
    | error e => rfl
    | ok ds => rw [hrr] at hall; simp [exceptIsOk] at hall
  · intro rows row ex sv hmem hsv hpass hpx
    have herr : exceptIsOk (reportRow host port ns ex row) = false := by
      rw [reportRow_keyError_pxname host port ns ex row sv hsv hpass hpx]
      rfl
    have hall := reportRows_err_of_mem host port ns ex rows row hmem herr
    unfold report_to_statsd
    cases hrr : reportRows host port ns ex rows with
    | error e => rfl
    | ok ds => rw [hrr] at hall; simp [exceptIsOk] at hall
  · intro row ex hsv
    simp [report_to_statsd, reportRows,
      reportRow_keyError_svname host port ns ex row hsv]

/-- Witness for C10: records lacking svname or pxname make the Reporter
raise. -/
theorem reporter_requires_keys_witness :
    exceptIsOk (report_to_statsd [recNoSvname] "127.0.0.1" 8125 "haproxy"
      false) = false ∧
    exceptIsOk (report_to_statsd [recNoPxname] "127.0.0.1" 8125 "haproxy"
      false) = false ∧
    report_to_statsd [recNoSvname] "127.0.0.1" 8125 "haproxy" true =
      Except.error "KeyError" := by
  have h := reporter_requires_keys "127.0.0.1" 8125 "haproxy"
  exact ⟨h.1 [recNoSvname] recNoSvname false (by decide) (by decide),
    h.2.1 [recNoPxname] recNoPxname false "BACKEND" (by decide) (by decide)
      (by decide) (by decide),
    h.2.2 recNoSvname true (by decide)⟩

end HaproxyStatsd
